import Mathlib

/-!
# MPEG audio frame header (`src/MP3/MP3.hpp`)

A shallow embedding of `struct FrameHeader`: its field bitmasks, its bit-field
members, the two rate tables with their lookups, and the string renderers.

Conventions of the embedding.

* A byte is a `Nat` below 256; `&`, `|` and `>>` are the `Nat` bitwise operations.
* An `enum class` member of width 2 is an inductive type with one constructor per
  enumerator together with `val`, the enumerator's bit pattern. Using such a member as an
  array subscript means subscripting with `val`.
* A member declared `bool M : w` holds `true` or `false`, whatever its width `w`: storing an
  integer converts it (`n != 0`), reading it as an integer gives `0` or `1`.
* A subscript outside an array is `none`; every lookup returns an `Option`.
* `GetBitrate` and `GetSampleRate` read members of `*this` and subscript a static table with
  them. `GetBitrateAt` and `GetSampleRateAt` are their return expressions as functions of the
  values the members are read as; `GetBitrate` and `GetSampleRate` apply them to a header.
-/

namespace FrameHeader

/-! ## Enumerations -/

/-- The `enum class AudioVersionID : unsigned`. -/
inductive AudioVersionID where
  | MPEG_2_5
  | INVALID
  | MPEG_2
  | MPEG_1
  deriving DecidableEq, Repr

/-- Bit pattern of an `AudioVersionID` enumerator. -/
def AudioVersionID.val : AudioVersionID → Nat
  | .MPEG_2_5 => 0b00
  | .INVALID  => 0b01
  | .MPEG_2   => 0b10
  | .MPEG_1   => 0b11

/-- The `enum class LayerID : unsigned`. -/
inductive LayerID where
  | INVALID
  | LAYER_3
  | LAYER_2
  | LAYER_1
  deriving DecidableEq, Repr

/-- Bit pattern of a `LayerID` enumerator. -/
def LayerID.val : LayerID → Nat
  | .INVALID => 0b00
  | .LAYER_3 => 0b01
  | .LAYER_2 => 0b10
  | .LAYER_1 => 0b11

/-- The enumerator `SpecialBitrate::INVALID`. -/
def SpecialBitrate.INVALID : Int := -8000

/-- The enumerator `SpecialBitrate::ANY`. -/
def SpecialBitrate.ANY : Int := 0

/-- The enumerator `SpecialSampleRate::RESERVED`. -/
def SpecialSampleRate.RESERVED : Nat := 0

/-- The `enum class ChannelModeID : unsigned`. -/
inductive ChannelModeID where
  | STEREO
  | JOINT
  | DUAL
  | SINGLE
  deriving DecidableEq, Repr

/-- Bit pattern of a `ChannelModeID` enumerator. -/
def ChannelModeID.val : ChannelModeID → Nat
  | .STEREO => 0b00
  | .JOINT  => 0b01
  | .DUAL   => 0b10
  | .SINGLE => 0b11

/-- The enumerator `EmphasisID::NONE`. Two enumerators of `EmphasisID` have the same value
and one 2-bit pattern has no enumerator, so the enumeration is kept as its values. -/
def EmphasisID.NONE : Nat := 0b00

/-- The enumerator `EmphasisID::MS_50_15`. -/
def EmphasisID.MS_50_15 : Nat := 0b01

/-- The enumerator `EmphasisID::INVALID`. -/
def EmphasisID.INVALID : Nat := 0b10

/-- The enumerator `EmphasisID::CCIT_J17`. -/
def EmphasisID.CCIT_J17 : Nat := 0b10

/-- The conversion of a 2-bit pattern to `AudioVersionID` (the inverse of `val`). -/
def AudioVersionID.ofBits (n : Nat) : AudioVersionID :=
  match n % 4 with
  | 0 => .MPEG_2_5
  | 1 => .INVALID
  | 2 => .MPEG_2
  | _ => .MPEG_1

/-- The conversion of a 2-bit pattern to `LayerID` (the inverse of `val`). -/
def LayerID.ofBits (n : Nat) : LayerID :=
  match n % 4 with
  | 0 => .INVALID
  | 1 => .LAYER_3
  | 2 => .LAYER_2
  | _ => .LAYER_1

/-- The conversion of a 2-bit pattern to `ChannelModeID` (the inverse of `val`). -/
def ChannelModeID.ofBits (n : Nat) : ChannelModeID :=
  match n % 4 with
  | 0 => .STEREO
  | 1 => .JOINT
  | 2 => .DUAL
  | _ => .SINGLE

/-! ## Constants: serialized size and field bitmasks, grouped by byte -/

def SERIALIZED_SIZE : Nat := 4

def FRAMESYNC_FIRST_BYTEMASK : Nat := 0b11111111

def FRAMESYNC_SECOND_BYTEMASK : Nat := 0b1110000
def AUDIO_VERSION_MASK : Nat := 0b00011000
def LAYER_DESCRIPTION_MASK : Nat := 0b00000110
def PROTECTION_BIT_MASK : Nat := 0b00000001

def BITRATE_INDEX_MASK : Nat := 0b11110000
def SAMPLERATE_INDEX_MASK : Nat := 0b00001100
def PADDING_BIT_MASK : Nat := 0b00000010
def PRIVATE_BIT_MASK : Nat := 0b00000001

def CHANNEL_MODE_MASK : Nat := 0b11000000
def MODE_EXTENTION_MASK : Nat := 0b00110000
def COPYRIGHT_BIT_MASK : Nat := 0b00001000
def ORIGINAL_BIT_MASK : Nat := 0b00000100
def EMPHASIS_MASK : Nat := 0b00000011

end FrameHeader

/-! ## The header -/

/-- The data members of `struct FrameHeader`, in declaration order. `FrameSyncByte` is the
bit pattern of the `char`; a member declared `bool` is a `Bool`; `Emphasis` is the 2-bit
value of the `EmphasisID` member. -/
structure FrameHeader where
  FrameSyncByte : Nat
  FrameSyncBits : Bool
  AudioVersion : FrameHeader.AudioVersionID
  Layer : FrameHeader.LayerID
  Protection : Bool
  BitrateIndex : Bool
  SampleRateIndex : Bool
  Padding : Bool
  Private : Bool
  ChannelMode : FrameHeader.ChannelModeID
  ExtentionMode : Bool
  Copyright : Bool
  Original : Bool
  Emphasis : Nat
  deriving DecidableEq, Repr

namespace FrameHeader

/-- The conversion of an integer to `bool`, as done when the integer is stored in a member
declared `bool`. -/
def toBool (n : Nat) : Bool := n != 0

/-- The integer a `bool` member is read as (integral promotion): 0 or 1. -/
def ofBool (b : Bool) : Nat := if b then 1 else 0

/-- The assignment `BitrateIndex = i` on a header. -/
def storeBitrateIndex (h : FrameHeader) (i : Nat) : FrameHeader :=
  { h with BitrateIndex := toBool i }

/-- The assignment `SampleRateIndex = j` on a header. -/
def storeSampleRateIndex (h : FrameHeader) (j : Nat) : FrameHeader :=
  { h with SampleRateIndex := toBool j }

/-! ## Rate tables -/

/-- The `static signed char rateTable[4][4][16]` of `GetBitrate`:
version, layer, bitrate index. -/
def GetBitrate.rateTable : List (List (List Int)) :=
  [ -- version[00] = MPEG_2_5
    [ [-1, -1, -1, -1, -1, -1, -1, -1, -1, -1, -1, -1, -1, -1, -1, -1],
      [ 0,  1,  2,  3,  4,  5,  6,  7,  8, 10, 12, 14, 16, 18, 20, -1],
      [ 0,  1,  2,  3,  4,  5,  6,  7,  8, 10, 12, 14, 16, 18, 20, -1],
      [ 0,  4,  6,  7,  8, 10, 12, 14, 16, 18, 20, 22, 24, 28, 32, -1] ],
    -- version[01] = INVALID
    [ [-1, -1, -1, -1, -1, -1, -1, -1, -1, -1, -1, -1, -1, -1, -1, -1],
      [-1, -1, -1, -1, -1, -1, -1, -1, -1, -1, -1, -1, -1, -1, -1, -1],
      [-1, -1, -1, -1, -1, -1, -1, -1, -1, -1, -1, -1, -1, -1, -1, -1],
      [-1, -1, -1, -1, -1, -1, -1, -1, -1, -1, -1, -1, -1, -1, -1, -1] ],
    -- version[10] = MPEG_2
    [ [-1, -1, -1, -1, -1, -1, -1, -1, -1, -1, -1, -1, -1, -1, -1, -1],
      [ 0,  1,  2,  3,  4,  5,  6,  7,  8, 10, 12, 14, 16, 18, 20, -1],
      [ 0,  1,  2,  3,  4,  5,  6,  7,  8, 10, 12, 14, 16, 18, 20, -1],
      [ 0,  4,  6,  7,  8, 10, 12, 14, 16, 18, 20, 22, 24, 28, 32, -1] ],
    -- version[11] = MPEG_1
    [ [-1, -1, -1, -1, -1, -1, -1, -1, -1, -1, -1, -1, -1, -1, -1, -1],
      [ 0,  4,  5,  6,  7,  8, 10, 12, 14, 16, 20, 24, 28, 32, 40, -1],
      [ 0,  4,  6,  7,  8, 10, 12, 14, 16, 20, 24, 28, 32, 40, 48, -1],
      [ 0,  4,  8, 12, 16, 20, 24, 28, 32, 36, 40, 44, 48, 52, 56, -1] ] ]

/-- The entry `rateTable[AudioVersion][Layer][BitrateIndex]` of the bitrate table. -/
def GetBitrate.entry (AudioVersion : AudioVersionID) (Layer : LayerID) (BitrateIndex : Nat) :
    Option Int :=
  match GetBitrate.rateTable[AudioVersion.val]? with
  | none => none
  | some layers =>
    match layers[Layer.val]? with
    | none => none
    | some row => row[BitrateIndex]?

/-- The return expression `rateTable[AudioVersion][Layer][BitrateIndex] * 8000` of
`GetBitrate`, as a function of the values the three members are read as. -/
def GetBitrateAt (AudioVersion : AudioVersionID) (Layer : LayerID) (BitrateIndex : Nat) :
    Option Int :=
  (GetBitrate.entry AudioVersion Layer BitrateIndex).map (fun e => e * 8000)

/-- The `static unsigned short rateTable[4][4]` of `GetSampleRate`:
version, sample rate index. -/
def GetSampleRate.rateTable : List (List Nat) :=
  [ [11025, 12000,  8000, 0],   -- version[00] = MPEG_2_5
    [    0,     0,     0, 0],   -- version[01] = INVALID
    [22050, 24000, 16000, 0],   -- version[10] = MPEG_2
    [44100, 48000, 32000, 0] ]  -- version[11] = MPEG_1

/-- The return expression `rateTable[AudioVersion][SampleRateIndex]` of `GetSampleRate`,
as a function of the values the two members are read as. -/
def GetSampleRateAt (AudioVersion : AudioVersionID) (SampleRateIndex : Nat) : Option Nat :=
  match GetSampleRate.rateTable[AudioVersion.val]? with
  | none => none
  | some row => row[SampleRateIndex]?

/-- The member function `GetBitrate`. -/
def GetBitrate (h : FrameHeader) : Option Int :=
  GetBitrateAt h.AudioVersion h.Layer (ofBool h.BitrateIndex)

/-- The member function `GetSampleRate`. -/
def GetSampleRate (h : FrameHeader) : Option Nat :=
  GetSampleRateAt h.AudioVersion (ofBool h.SampleRateIndex)

/-! ## Renderers -/

/-- The decimal rendering `std::to_string` of an `int`. -/
def to_string (n : Int) : String := toString n

/-- The body of `GetSampleRateStr` on the values the members are read as. -/
def GetSampleRateStrAt (AudioVersion : AudioVersionID) (SampleRateIndex : Nat) :
    Option String :=
  (GetSampleRateAt AudioVersion SampleRateIndex).map fun rate =>
    if rate = SpecialSampleRate.RESERVED then "INVALID" else to_string rate

/-- The member function `GetSampleRateStr`. -/
def GetSampleRateStr (h : FrameHeader) : Option String :=
  GetSampleRateStrAt h.AudioVersion (ofBool h.SampleRateIndex)

/-- The body of `GetBitrateStr` on the values the members are read as. -/
def GetBitrateStrAt (AudioVersion : AudioVersionID) (Layer : LayerID) (BitrateIndex : Nat) :
    Option String :=
  (GetBitrateAt AudioVersion Layer BitrateIndex).map fun rate =>
    if rate = SpecialBitrate.ANY then "ANY"
    else if rate = SpecialBitrate.INVALID then "INVALID"
    else to_string rate

/-- The member function `GetBitrateStr`. -/
def GetBitrateStr (h : FrameHeader) : Option String :=
  GetBitrateStrAt h.AudioVersion h.Layer (ofBool h.BitrateIndex)

/-- The body of `GetVersionStr` on the value of `AudioVersion`. -/
def GetVersionStrAt (AudioVersion : AudioVersionID) : String :=
  if AudioVersion = AudioVersionID.MPEG_1 then "1"
  else if AudioVersion = AudioVersionID.MPEG_2 then "2"
  else if AudioVersion = AudioVersionID.MPEG_2_5 then "2.5"
  else "INVALID"

/-- The member function `GetVersionStr`. -/
def GetVersionStr (h : FrameHeader) : String := GetVersionStrAt h.AudioVersion

/-- The body of `GetLayerStr` on the value of `Layer`. -/
def GetLayerStrAt (Layer : LayerID) : String :=
  if Layer = LayerID.LAYER_1 then "1"
  else if Layer = LayerID.LAYER_2 then "2"
  else if Layer = LayerID.LAYER_3 then "3"
  else "INVALID"

/-- The member function `GetLayerStr`. -/
def GetLayerStr (h : FrameHeader) : String := GetLayerStrAt h.Layer

end FrameHeader

/-! ## Reference values of the MPEG audio standard -/

/-- The bitrates of the MPEG audio standard in kbps, by bitrate index 1..14. -/
def standardKbps : FrameHeader.AudioVersionID → FrameHeader.LayerID → List Int
  | .INVALID, _ => []
  | _, .INVALID => []
  | .MPEG_1, .LAYER_1 => [32, 64, 96, 128, 160, 192, 224, 256, 288, 320, 352, 384, 416, 448]
  | .MPEG_1, .LAYER_2 => [32, 48, 56, 64, 80, 96, 112, 128, 160, 192, 224, 256, 320, 384]
  | .MPEG_1, .LAYER_3 => [32, 40, 48, 56, 64, 80, 96, 112, 128, 160, 192, 224, 256, 320]
  | _, .LAYER_1 => [32, 48, 56, 64, 80, 96, 112, 128, 144, 160, 176, 192, 224, 256]
  | _, _ => [8, 16, 24, 32, 40, 48, 56, 64, 80, 96, 112, 128, 144, 160]

namespace FrameHeader

/-! ## Decoding four bytes with the field bitmasks -/

/-- The sync pattern as the specification words it: the first 11 bits of the input, that is
the whole first byte and the top three bits of the second byte, are all ones. -/
def syncPrefixAllOnes (b0 b1 : Nat) : Bool :=
  b0 % 256 == 0b11111111 && (b1 % 256) >>> 5 == 0b111

/-- Whether every bit under `mask` is set in `byte`. -/
def allSet (byte mask : Nat) : Bool := byte &&& mask == mask

/-- The frame-sync test with the two frame-sync masks: all bits under
`FRAMESYNC_FIRST_BYTEMASK` are set in the first byte and all bits under
`FRAMESYNC_SECOND_BYTEMASK` in the second. -/
def syncMatches (b0 b1 : Nat) : Bool :=
  allSet b0 FRAMESYNC_FIRST_BYTEMASK && allSet b1 FRAMESYNC_SECOND_BYTEMASK

/-- Position of the lowest set bit of a byte mask (0 for the empty mask). -/
def lowBit (mask : Nat) : Nat :=
  ((List.range 8).find? fun k => mask.testBit k).getD 0

/-- The bits of `byte` selected by `mask`, as a number: `(byte & mask) >> lowBit mask`. -/
def field (byte mask : Nat) : Nat := (byte &&& mask) >>> lowBit mask

/-- The failure of the header decoder. -/
inductive DecodeError where
  | InvalidSync
  deriving DecidableEq, Repr

/-- Modelled from the spec: the header decoder (section 4.1), which the source does not
contain. Given four bytes it fails with `InvalidSync` when the frame-sync test fails, and
otherwise reads every field from the bits its bitmask selects and stores it in the member
of that field, in serialization order. The bitmasks and the members are the source's. -/
def decode (b0 b1 b2 b3 : Nat) : Except DecodeError FrameHeader :=
  if syncMatches b0 b1 then
    Except.ok
      { FrameSyncByte := field b0 FRAMESYNC_FIRST_BYTEMASK
        FrameSyncBits := toBool (field b1 FRAMESYNC_SECOND_BYTEMASK)
        AudioVersion := AudioVersionID.ofBits (field b1 AUDIO_VERSION_MASK)
        Layer := LayerID.ofBits (field b1 LAYER_DESCRIPTION_MASK)
        Protection := toBool (field b1 PROTECTION_BIT_MASK)
        BitrateIndex := toBool (field b2 BITRATE_INDEX_MASK)
        SampleRateIndex := toBool (field b2 SAMPLERATE_INDEX_MASK)
        Padding := toBool (field b2 PADDING_BIT_MASK)
        Private := toBool (field b2 PRIVATE_BIT_MASK)
        ChannelMode := ChannelModeID.ofBits (field b3 CHANNEL_MODE_MASK)
        ExtentionMode := toBool (field b3 MODE_EXTENTION_MASK)
        Copyright := toBool (field b3 COPYRIGHT_BIT_MASK)
        Original := toBool (field b3 ORIGINAL_BIT_MASK)
        Emphasis := field b3 EMPHASIS_MASK }
  else
    Except.error DecodeError.InvalidSync

/-- The field bitmasks of the four header bytes, grouped by byte as in the source. -/
def byteMasks : List (List Nat) :=
  [ [FRAMESYNC_FIRST_BYTEMASK],
    [FRAMESYNC_SECOND_BYTEMASK, AUDIO_VERSION_MASK, LAYER_DESCRIPTION_MASK,
      PROTECTION_BIT_MASK],
    [BITRATE_INDEX_MASK, SAMPLERATE_INDEX_MASK, PADDING_BIT_MASK, PRIVATE_BIT_MASK],
    [CHANNEL_MODE_MASK, MODE_EXTENTION_MASK, COPYRIGHT_BIT_MASK, ORIGINAL_BIT_MASK,
      EMPHASIS_MASK] ]

/-- Splitting a byte into its fields: `byte & mask` for each mask of the byte. -/
def splitByte (byte : Nat) (masks : List Nat) : List Nat :=
  masks.map fun m => byte &&& m

/-- Recombining the fields of a byte: their bitwise OR. -/
def joinFields (fields : List Nat) : Nat :=
  fields.foldl (fun acc f => acc ||| f) 0

/-- Modelled from the spec: decoding then re-encoding (section 8, round-trip law), which the
source does not contain, on the source's bitmasks: every byte is split into its fields and
the fields of each byte are recombined. -/
def roundTrip (bytes : List Nat) : List Nat :=
  List.zipWith (fun b masks => joinFields (splitByte b masks)) bytes byteMasks

/-- Whether the masks of one byte are pairwise disjoint. -/
def pairwiseDisjoint : List Nat → Bool
  | [] => true
  | m :: rest => rest.all (fun n => m &&& n == 0) && pairwiseDisjoint rest

/-- Whether the masks of one byte together cover all 8 bits. -/
def coversByte (masks : List Nat) : Bool := joinFields masks == 0b11111111

/-! ## Layout of the members and masks -/

/-- The declared widths of the data members in declaration order: the 8 bits of
`char FrameSyncByte`, then the widths of the thirteen bit-fields. -/
def memberWidths : List Nat := [8, 3, 2, 2, 1, 4, 2, 1, 1, 2, 2, 1, 1, 2]

/-- The number of set bits of a byte mask. -/
def popCount (mask : Nat) : Nat :=
  ((List.range 8).filter fun k => mask.testBit k).length

/-- Whether the set bits of a mask are contiguous (one non-empty run of ones). -/
def contiguous (mask : Nat) : Bool :=
  mask != 0 && (mask >>> lowBit mask) &&& ((mask >>> lowBit mask) + 1) == 0

/-- Whether `mask` lies strictly below `previous`: every set bit of `mask` is less
significant than every set bit of `previous`. -/
def strictlyBelow (mask previous : Nat) : Bool := decide (mask < 2 ^ lowBit previous)

/-- Whether, in the masks of one byte, every mask lies strictly below the mask of the field
declared before it. -/
def descending : List Nat → Bool
  | previous :: mask :: rest => strictlyBelow mask previous && descending (mask :: rest)
  | _ => true

/-- The enumerators of `EmphasisID` in declaration order, as their values. -/
def EmphasisID.enumerators : List Nat :=
  [EmphasisID.NONE, EmphasisID.MS_50_15, EmphasisID.INVALID, EmphasisID.CCIT_J17]

/-! ## Machine integers -/

/-- The value an integer takes in a signed type of `w` bits (two's complement). -/
def wrapSigned (w : Nat) (x : Int) : Int := (x + 2 ^ (w - 1)) % 2 ^ w - 2 ^ (w - 1)

/-- The value a natural number takes in an unsigned type of `w` bits. -/
def wrapUnsigned (w : Nat) (n : Nat) : Nat := n % 2 ^ w

/-! ## The renderings as functions of the rate -/

/-- The conditional expression of `GetBitrateStr` on the rate. -/
def bitrateText (rate : Int) : String :=
  if rate = SpecialBitrate.ANY then "ANY"
  else if rate = SpecialBitrate.INVALID then "INVALID"
  else to_string rate

/-- The conditional expression of `GetSampleRateStr` on the rate. -/
def sampleRateText (rate : Nat) : String :=
  if rate = SpecialSampleRate.RESERVED then "INVALID" else to_string rate

/-- The values that occur in the bitrate table, each once. -/
def GetBitrate.entryValues : List Int := GetBitrate.rateTable.flatten.flatten.dedup

/-- The values that occur in the sample-rate table, each once. -/
def GetSampleRate.entryValues : List Nat := GetSampleRate.rateTable.flatten.dedup

/-! ## The bitrate resolver -/

/-- The bitrate table holds the standard values: for every non-reserved version and layer
and every subscript 1..14, the entry times 8000 is the standard bitrate (the listed kbps
figure times 1000, in bits per second). -/
theorem GetBitrateAt_standard (v : AudioVersionID) (l : LayerID) (i : Nat)
    (hv : v ≠ AudioVersionID.INVALID) (hl : l ≠ LayerID.INVALID)
    (hlo : 1 ≤ i) (hhi : i ≤ 14) :
    ∃ e kbps : Int,
      GetBitrate.entry v l i = some e ∧
      GetBitrateAt v l i = some (e * 8000) ∧
      (standardKbps v l)[i - 1]? = some kbps ∧
      GetBitrateAt v l i = some (kbps * 1000) := by
  interval_cases i <;> cases v <;> cases l <;>
    first
    | exact absurd rfl hv
    | exact absurd rfl hl
    | exact ⟨_, _, rfl, rfl, rfl, rfl⟩

/-- C2: for every version, layer and bitrate index 0..15, `GetBitrate` returns the `ANY`
sentinel exactly when the index is 0 and neither version nor layer is reserved; for an
index 1..15 the result is never 0. -/
theorem GetBitrateAt_eq_ANY_iff (v : AudioVersionID) (l : LayerID) (i : Nat) (hi : i ≤ 15) :
    (GetBitrateAt v l i = some SpecialBitrate.ANY ↔
      i = 0 ∧ v ≠ AudioVersionID.INVALID ∧ l ≠ LayerID.INVALID) ∧
    (1 ≤ i → GetBitrateAt v l i ≠ some 0) := by
  interval_cases i <;> cases v <;> cases l <;> decide

/-- C2 at MPEG_1, LAYER_3, index 0: the result is `ANY`. -/
theorem GetBitrateAt_eq_ANY_iff_witness :
    GetBitrateAt AudioVersionID.MPEG_1 LayerID.LAYER_3 0 = some SpecialBitrate.ANY :=
  (GetBitrateAt_eq_ANY_iff AudioVersionID.MPEG_1 LayerID.LAYER_3 0 (by decide)).1.mpr
    ⟨rfl, by decide, by decide⟩

/-- In the bitrate table the value -1, giving -8000, stands exactly in the plane of the
reserved version, in the rows of the reserved layer and in column 15. -/
theorem GetBitrateAt_eq_INVALID_iff (v : AudioVersionID) (l : LayerID) (i : Nat)
    (hi : i ≤ 15) :
    GetBitrateAt v l i = some SpecialBitrate.INVALID ↔
      v = AudioVersionID.INVALID ∨ l = LayerID.INVALID ∨ i = 15 := by
  interval_cases i <;> cases v <;> cases l <;> decide

/-! ## The sample-rate resolver -/

/-- The sample-rate table holds the standard frequencies in columns 0, 1, 2: 44100, 48000,
32000 for MPEG_1, 22050, 24000, 16000 for MPEG_2 and 11025, 12000, 8000 for MPEG_2_5. -/
theorem GetSampleRateAt_standard :
    [0, 1, 2].map (GetSampleRateAt AudioVersionID.MPEG_1)
      = [some 44100, some 48000, some 32000] ∧
    [0, 1, 2].map (GetSampleRateAt AudioVersionID.MPEG_2)
      = [some 22050, some 24000, some 16000] ∧
    [0, 1, 2].map (GetSampleRateAt AudioVersionID.MPEG_2_5)
      = [some 11025, some 12000, some 8000] := by
  decide

/-- In the sample-rate table the value 0 stands exactly in the row of the reserved version
and in column 3. -/
theorem GetSampleRateAt_eq_RESERVED_iff (v : AudioVersionID) (j : Nat) (hj : j ≤ 3) :
    GetSampleRateAt v j = some SpecialSampleRate.RESERVED ↔
      v = AudioVersionID.INVALID ∨ j = 3 := by
  interval_cases j <;> cases v <;> decide

/-! ## Decoding -/

/-- C6: the bytes 0xFF 0xFB 0x90 0x00 decode without error to MPEG_1, LAYER_3,
protection set, padding and private clear; the bitrate mask selects 9 and the sample-rate
mask 0 in the third byte, but the `BitrateIndex` member of the decoded header reads 1, and
on that header `GetBitrate` returns 32000 (the resolver gives 128000 at index 9) and
`GetSampleRate` returns 44100. -/
theorem decode_FF_FB_90_00 :
    ∃ h : FrameHeader,
      decode 0xFF 0xFB 0x90 0x00 = Except.ok h ∧
      h.AudioVersion = AudioVersionID.MPEG_1 ∧
      h.Layer = LayerID.LAYER_3 ∧
      h.Protection = true ∧ h.Padding = false ∧ h.Private = false ∧
      field 0x90 BITRATE_INDEX_MASK = 9 ∧
      field 0x90 SAMPLERATE_INDEX_MASK = 0 ∧
      ofBool h.BitrateIndex = 1 ∧
      ofBool h.SampleRateIndex = 0 ∧
      GetBitrate h = some 32000 ∧
      GetBitrateAt AudioVersionID.MPEG_1 LayerID.LAYER_3 9 = some 128000 ∧
      GetSampleRate h = some 44100 :=
  ⟨_, rfl, by decide⟩

/-- C7: the frame-sync masks do not select the 11-bit sync prefix. For 0xFF 0x7F 0x00 0x00
every bit under both masks is set and the input is accepted although its first 11 bits are
not all ones; for 0xFF 0xE0 0x00 0x00 the first 11 bits are all ones and the input is
rejected as `InvalidSync`. The all-zero input is rejected. -/
theorem syncMatches_ne_syncPrefixAllOnes :
    (syncMatches 0xFF 0x7F = true ∧ syncPrefixAllOnes 0xFF 0x7F = false ∧
      ∃ h : FrameHeader, decode 0xFF 0x7F 0x00 0x00 = Except.ok h) ∧
    (syncPrefixAllOnes 0xFF 0xE0 = true ∧ syncMatches 0xFF 0xE0 = false ∧
      decode 0xFF 0xE0 0x00 0x00 = Except.error DecodeError.InvalidSync) ∧
    decode 0x00 0x00 0x00 0x00 = Except.error DecodeError.InvalidSync :=
  ⟨⟨by decide, by decide, _, rfl⟩, ⟨by decide, by decide, rfl⟩, rfl⟩

/-- C8: splitting 0xFF 0xFB 0x90 0x00 with the field masks and recombining gives
0xFF 0x7B 0x90 0x00: the masks of the second byte overlap (the frame-sync mask and the
version mask share bit 4) and leave bit 7 uncovered, while the masks of the other three
bytes are pairwise disjoint and cover all 8 bits. -/
theorem roundTrip_FF_FB_90_00 :
    roundTrip [0xFF, 0xFB, 0x90, 0x00] = [0xFF, 0x7B, 0x90, 0x00] ∧
    FRAMESYNC_SECOND_BYTEMASK &&& AUDIO_VERSION_MASK = 0b00010000 ∧
    byteMasks.map joinFields = [0xFF, 0x7F, 0xFF, 0xFF] ∧
    byteMasks.map pairwiseDisjoint = [true, false, true, true] ∧
    byteMasks.map coversByte = [true, false, true, true] := by
  decide

/-! ## The index members -/

/-- C9: `BitrateIndex` and `SampleRateIndex` are `bool` members, so an index stored in one
of them reads back as 0 or 1 (9 reads back as 1), and `GetBitrate` and `GetSampleRate`
look up column 0 or 1 of their table, whatever index was stored. -/
theorem stored_index_reads_back_min_one (h : FrameHeader) (i j : Nat) :
    ofBool (storeBitrateIndex h i).BitrateIndex = min i 1 ∧
    ofBool (storeSampleRateIndex h j).SampleRateIndex = min j 1 ∧
    GetBitrate (storeBitrateIndex h i) = GetBitrateAt h.AudioVersion h.Layer (min i 1) ∧
    GetSampleRate (storeSampleRateIndex h j) = GetSampleRateAt h.AudioVersion (min j 1) := by
  have key : ∀ n : Nat, ofBool (toBool n) = min n 1 := by
    intro n
    cases n with
    | zero => rfl
    | succ k => simp [ofBool, toBool]
  refine ⟨key i, key j, ?_, ?_⟩
  · show GetBitrateAt h.AudioVersion h.Layer (ofBool (toBool i)) = _
    rw [key]
  · show GetSampleRateAt h.AudioVersion (ofBool (toBool j)) = _
    rw [key]

/-! ## Renderers -/

/-- The body of `GetBitrateStr` on every table value: "ANY" exactly for the rate 0, "INVALID"
exactly for the rate -8000, and otherwise the decimal representation of the positive rate. -/
theorem GetBitrateStrAt_spec (v : AudioVersionID) (l : LayerID) (i : Nat) (hi : i ≤ 15) :
    (GetBitrateStrAt v l i = some "ANY" ↔ GetBitrateAt v l i = some SpecialBitrate.ANY) ∧
    (GetBitrateStrAt v l i = some "INVALID" ↔
      GetBitrateAt v l i = some SpecialBitrate.INVALID) ∧
    (GetBitrateAt v l i ≠ some SpecialBitrate.ANY →
      GetBitrateAt v l i ≠ some SpecialBitrate.INVALID →
      ∃ n : Nat, 0 < n ∧ GetBitrateAt v l i = some (n : Int) ∧
        GetBitrateStrAt v l i = some (Nat.repr n)) := by
  refine ⟨?_, ?_, fun hANY hINVALID =>
    ⟨((GetBitrateAt v l i).getD 0).toNat, ?_, ?_, ?_⟩⟩ <;>
  (interval_cases i <;> cases v <;> cases l <;>
    first
    | decide
    | exact absurd rfl hANY
    | exact absurd rfl hINVALID)

/-- The body of `GetSampleRateStr` on every table value: "INVALID" exactly for the rate 0,
which stands in the row of the reserved version and in column 3, otherwise the decimal
representation of the positive rate, and never "0". -/
theorem GetSampleRateStrAt_spec (v : AudioVersionID) (j : Nat) (hj : j ≤ 3) :
    (GetSampleRateStrAt v j = some "INVALID" ↔
      GetSampleRateAt v j = some SpecialSampleRate.RESERVED) ∧
    (GetSampleRateAt v j = some SpecialSampleRate.RESERVED ↔
      v = AudioVersionID.INVALID ∨ j = 3) ∧
    (GetSampleRateAt v j ≠ some SpecialSampleRate.RESERVED →
      ∃ n : Nat, 0 < n ∧ GetSampleRateAt v j = some n ∧
        GetSampleRateStrAt v j = some (Nat.repr n)) ∧
    GetSampleRateStrAt v j ≠ some "0" := by
  refine ⟨?_, ?_, fun hRESERVED => ⟨(GetSampleRateAt v j).getD 0, ?_, ?_, ?_⟩, ?_⟩ <;>
  (interval_cases j <;> cases v <;>
    first
    | decide
    | exact absurd rfl hRESERVED)

/-- C12: over the four 2-bit patterns 0b00, 0b01, 0b10, 0b11 `GetVersionStr` gives "2.5",
"INVALID", "2", "1" and `GetLayerStr` gives "INVALID", "3", "2", "1"; the patterns are those
of MPEG_2_5, reserved, MPEG_2, MPEG_1 and of reserved, LAYER_3, LAYER_2, LAYER_1; and on
every header the result is "INVALID" exactly for the reserved version, respectively
layer. -/
theorem GetVersionStr_GetLayerStr_spec :
    [0b00, 0b01, 0b10, 0b11].map (fun n => GetVersionStrAt (AudioVersionID.ofBits n))
      = ["2.5", "INVALID", "2", "1"] ∧
    [AudioVersionID.MPEG_2_5, AudioVersionID.INVALID, AudioVersionID.MPEG_2,
      AudioVersionID.MPEG_1].map AudioVersionID.val = [0b00, 0b01, 0b10, 0b11] ∧
    [0b00, 0b01, 0b10, 0b11].map AudioVersionID.ofBits
      = [AudioVersionID.MPEG_2_5, AudioVersionID.INVALID, AudioVersionID.MPEG_2,
          AudioVersionID.MPEG_1] ∧
    [0b00, 0b01, 0b10, 0b11].map (fun n => GetLayerStrAt (LayerID.ofBits n))
      = ["INVALID", "3", "2", "1"] ∧
    [LayerID.INVALID, LayerID.LAYER_3, LayerID.LAYER_2, LayerID.LAYER_1].map LayerID.val
      = [0b00, 0b01, 0b10, 0b11] ∧
    [0b00, 0b01, 0b10, 0b11].map LayerID.ofBits
      = [LayerID.INVALID, LayerID.LAYER_3, LayerID.LAYER_2, LayerID.LAYER_1] ∧
    (∀ h : FrameHeader,
      (GetVersionStr h = "INVALID" ↔ h.AudioVersion = AudioVersionID.INVALID) ∧
      (GetLayerStr h = "INVALID" ↔ h.Layer = LayerID.INVALID)) := by
  refine ⟨by decide, by decide, by decide, by decide, by decide, by decide, ?_⟩
  intro h
  constructor
  · show GetVersionStrAt h.AudioVersion = "INVALID" ↔ _
    cases h.AudioVersion <;> decide
  · show GetLayerStrAt h.Layer = "INVALID" ↔ _
    cases h.Layer <;> decide

/-! ## Layout -/

/-- C13: the declared widths sum to 32 = 8 x `SERIALIZED_SIZE`, every mask has as many set
bits as its member is wide, and the set bits of every mask are contiguous; but in the
second byte `AUDIO_VERSION_MASK` does not lie strictly below `FRAMESYNC_SECOND_BYTEMASK`:
both select bit 4 (0x10). In the other three bytes every mask lies strictly below the one
before it. -/
theorem masks_layout :
    memberWidths.sum = 32 ∧ 32 = 8 * SERIALIZED_SIZE ∧
    byteMasks.flatten.map popCount = memberWidths ∧
    byteMasks.flatten.all contiguous = true ∧
    byteMasks.map descending = [true, false, true, true] ∧
    strictlyBelow AUDIO_VERSION_MASK FRAMESYNC_SECOND_BYTEMASK = false ∧
    0x10 &&& FRAMESYNC_SECOND_BYTEMASK = 0x10 ∧
    0x10 &&& AUDIO_VERSION_MASK = 0x10 := by
  decide

/-- C14: the enumerators of `EmphasisID` are NONE = 0b00, MS_50_15 = 0b01 and
INVALID = CCIT_J17 = 0b10; they take three distinct values and none is 0b11. -/
theorem EmphasisID_enumerators :
    EmphasisID.NONE = 0b00 ∧ EmphasisID.MS_50_15 = 0b01 ∧
    EmphasisID.INVALID = 0b10 ∧ EmphasisID.CCIT_J17 = 0b10 ∧
    EmphasisID.INVALID = EmphasisID.CCIT_J17 ∧
    EmphasisID.enumerators.length = 4 ∧
    EmphasisID.enumerators.dedup = [0b00, 0b01, 0b10] ∧
    0b11 ∉ EmphasisID.enumerators := by
  decide

/-! ## Bounds -/

/-- C15: the bitrate table is 4 x 4 x 16 and the sample-rate table 4 x 4; for every version,
layer, bitrate index 0..15 and sample-rate index 0..3 both lookups are within bounds, so
`GetBitrate` and `GetSampleRate` return a value, on every header too. -/
theorem lookups_in_bounds (v : AudioVersionID) (l : LayerID) (i j : Nat)
    (hi : i ≤ 15) (hj : j ≤ 3) :
    GetBitrate.rateTable.map (fun layers => layers.map List.length)
      = List.replicate 4 (List.replicate 4 16) ∧
    GetSampleRate.rateTable.map List.length = List.replicate 4 4 ∧
    (GetBitrateAt v l i).isSome = true ∧
    (GetSampleRateAt v j).isSome = true ∧
    (∀ h : FrameHeader, (GetBitrate h).isSome = true ∧ (GetSampleRate h).isSome = true) := by
  refine ⟨by decide, by decide, ?_, ?_, ?_⟩
  · interval_cases i <;> cases v <;> cases l <;> decide
  · interval_cases j <;> cases v <;> decide
  · intro h
    constructor
    · show (GetBitrateAt h.AudioVersion h.Layer (ofBool h.BitrateIndex)).isSome = true
      cases h.AudioVersion <;> cases h.Layer <;> cases h.BitrateIndex <;> decide
    · show (GetSampleRateAt h.AudioVersion (ofBool h.SampleRateIndex)).isSome = true
      cases h.AudioVersion <;> cases h.SampleRateIndex <;> decide

/-- C15 at MPEG_1, LAYER_3, bitrate index 15 and sample-rate index 3. -/
theorem lookups_in_bounds_witness :
    (GetBitrateAt AudioVersionID.MPEG_1 LayerID.LAYER_3 15).isSome = true ∧
    (GetSampleRateAt AudioVersionID.MPEG_1 3).isSome = true :=
  let t := lookups_in_bounds AudioVersionID.MPEG_1 LayerID.LAYER_3 15 3 (by decide) (by decide)
  ⟨t.2.2.1, t.2.2.2.1⟩

/-- Every entry of the bitrate table is in -1..56, is unchanged by the 8-bit signed type,
and its product with 8000 is unchanged by the 32-bit signed type and is -8000, 0, or a
multiple of 8000 in 8000..448000. -/
theorem bitrate_entry_bounds (v : AudioVersionID) (l : LayerID) (i : Nat) (hi : i ≤ 15) :
    ∃ e : Int,
      GetBitrate.entry v l i = some e ∧ GetBitrateAt v l i = some (e * 8000) ∧
      -1 ≤ e ∧ e ≤ 56 ∧ wrapSigned 8 e = e ∧ wrapSigned 32 (e * 8000) = e * 8000 ∧
      (e * 8000 = -8000 ∨ e * 8000 = 0 ∨
        (8000 ≤ e * 8000 ∧ e * 8000 ≤ 448000 ∧ (e * 8000) % 8000 = 0)) := by
  refine ⟨(GetBitrate.entry v l i).getD 0, ?_⟩
  interval_cases i <;> cases v <;> cases l <;> decide

/-- Every entry of the sample-rate table is at most 48000 and unchanged by the 16-bit
unsigned type. -/
theorem sampleRate_entry_bounds (v : AudioVersionID) (j : Nat) (hj : j ≤ 3) :
    ∃ n : Nat, GetSampleRateAt v j = some n ∧ n ≤ 48000 ∧ wrapUnsigned 16 n = n := by
  refine ⟨(GetSampleRateAt v j).getD 0, ?_⟩
  interval_cases j <;> cases v <;> decide

/-- C16: for every version, layer, bitrate index 0..15 and sample-rate index 0..3, the
bitrate-table entry lies in -1..56 and fits a signed 8-bit char, its product with 8000
fits a signed 32-bit int, the `GetBitrate` result is -8000, 0, or a multiple of 8000 between
8000 and 448000, and the sample-rate entry is at most 48000 and fits the unsigned 16-bit
return type unchanged. -/
theorem resolvers_no_overflow (v : AudioVersionID) (l : LayerID) (i j : Nat)
    (hi : i ≤ 15) (hj : j ≤ 3) :
    ∃ (e : Int) (n : Nat),
      GetBitrate.entry v l i = some e ∧ GetBitrateAt v l i = some (e * 8000) ∧
      -1 ≤ e ∧ e ≤ 56 ∧ wrapSigned 8 e = e ∧ wrapSigned 32 (e * 8000) = e * 8000 ∧
      (e * 8000 = -8000 ∨ e * 8000 = 0 ∨
        (8000 ≤ e * 8000 ∧ e * 8000 ≤ 448000 ∧ (e * 8000) % 8000 = 0)) ∧
      GetSampleRateAt v j = some n ∧ n ≤ 48000 ∧ wrapUnsigned 16 n = n := by
  obtain ⟨e, h1, h2, h3, h4, h5, h6, h7⟩ := bitrate_entry_bounds v l i hi
  obtain ⟨n, g1, g2, g3⟩ := sampleRate_entry_bounds v j hj
  exact ⟨e, n, h1, h2, h3, h4, h5, h6, h7, g1, g2, g3⟩

/-- C16 at MPEG_1, LAYER_1, bitrate index 14 (the largest entry, 56, giving 448000) and
MPEG_1, sample-rate index 1 (the largest entry, 48000). -/
theorem resolvers_no_overflow_witness :
    GetBitrateAt AudioVersionID.MPEG_1 LayerID.LAYER_1 14 = some 448000 ∧
    GetSampleRateAt AudioVersionID.MPEG_1 1 = some 48000 ∧
    ∃ (e : Int) (n : Nat),
      GetBitrate.entry AudioVersionID.MPEG_1 LayerID.LAYER_1 14 = some e ∧
      GetBitrateAt AudioVersionID.MPEG_1 LayerID.LAYER_1 14 = some (e * 8000) ∧
      -1 ≤ e ∧ e ≤ 56 ∧ wrapSigned 8 e = e ∧ wrapSigned 32 (e * 8000) = e * 8000 ∧
      (e * 8000 = -8000 ∨ e * 8000 = 0 ∨
        (8000 ≤ e * 8000 ∧ e * 8000 ≤ 448000 ∧ (e * 8000) % 8000 = 0)) ∧
      GetSampleRateAt AudioVersionID.MPEG_1 1 = some n ∧ n ≤ 48000 ∧
      wrapUnsigned 16 n = n :=
  ⟨by decide, by decide,
    resolvers_no_overflow AudioVersionID.MPEG_1 LayerID.LAYER_1 14 1 (by decide) (by decide)⟩

/-! ## Relations between table entries -/

/-- The rows of the bitrate table of every non-reserved version and layer are strictly
increasing over the columns 0..14. -/
theorem GetBitrateAt_strictMono (v : AudioVersionID) (l : LayerID) (i j : Nat)
    (hv : v ≠ AudioVersionID.INVALID) (hl : l ≠ LayerID.INVALID)
    (hij : i < j) (hj : j ≤ 14) :
    ∃ a b : Int, GetBitrateAt v l i = some a ∧ GetBitrateAt v l j = some b ∧ a < b := by
  refine ⟨(GetBitrateAt v l i).getD 0, (GetBitrateAt v l j).getD 0, ?_⟩
  interval_cases j <;> interval_cases i <;> cases v <;> cases l <;>
    first
    | exact absurd rfl hv
    | exact absurd rfl hl
    | decide

/-- C18: for every sample-rate index 0..3, the MPEG_1 sample rate is twice the MPEG_2 one
and four times the MPEG_2_5 one. -/
theorem GetSampleRateAt_halving (j : Nat) (hj : j ≤ 3) :
    ∃ a b c : Nat,
      GetSampleRateAt AudioVersionID.MPEG_1 j = some a ∧
      GetSampleRateAt AudioVersionID.MPEG_2 j = some b ∧
      GetSampleRateAt AudioVersionID.MPEG_2_5 j = some c ∧
      a = 2 * b ∧ a = 4 * c := by
  refine ⟨(GetSampleRateAt AudioVersionID.MPEG_1 j).getD 0,
    (GetSampleRateAt AudioVersionID.MPEG_2 j).getD 0,
    (GetSampleRateAt AudioVersionID.MPEG_2_5 j).getD 0, ?_⟩
  interval_cases j <;> decide

/-- C18 at index 0: 44100 = 2 x 22050 = 4 x 11025. -/
theorem GetSampleRateAt_halving_witness :
    ∃ a b c : Nat,
      GetSampleRateAt AudioVersionID.MPEG_1 0 = some a ∧
      GetSampleRateAt AudioVersionID.MPEG_2 0 = some b ∧
      GetSampleRateAt AudioVersionID.MPEG_2_5 0 = some c ∧
      a = 2 * b ∧ a = 4 * c :=
  GetSampleRateAt_halving 0 (by decide)

/-! ## The renderers are injective on the resolved values -/

set_option maxRecDepth 1000000 in
/-- Every entry of the bitrate table at an index 0..15 is one of `entryValues`. -/
theorem bitrate_entry_mem_entryValues (v : AudioVersionID) (l : LayerID) (i : Nat)
    (hi : i ≤ 15) :
    ∃ e : Int, e ∈ GetBitrate.entryValues ∧ GetBitrate.entry v l i = some e := by
  refine ⟨(GetBitrate.entry v l i).getD 0, ?_⟩
  interval_cases i <;> cases v <;> cases l <;> decide

set_option maxRecDepth 1000000 in
/-- Every entry of the sample-rate table at an index 0..3 is one of `entryValues`. -/
theorem sampleRate_entry_mem_entryValues (v : AudioVersionID) (j : Nat) (hj : j ≤ 3) :
    ∃ n : Nat, n ∈ GetSampleRate.entryValues ∧ GetSampleRateAt v j = some n := by
  refine ⟨(GetSampleRateAt v j).getD 0, ?_⟩
  interval_cases j <;> cases v <;> decide

set_option maxRecDepth 1000000 in
/-- On the bitrates that the table gives, distinct rates have distinct renderings. -/
theorem bitrateText_injOn :
    ∀ a ∈ GetBitrate.entryValues, ∀ b ∈ GetBitrate.entryValues,
      bitrateText (a * 8000) = bitrateText (b * 8000) → a = b := by
  decide

set_option maxRecDepth 1000000 in
/-- On the sample rates that the table gives, distinct rates have distinct renderings. -/
theorem sampleRateText_injOn :
    ∀ a ∈ GetSampleRate.entryValues, ∀ b ∈ GetSampleRate.entryValues,
      sampleRateText a = sampleRateText b → a = b := by
  decide

/-- On the table values at subscripts 0..15 and 0..3 the bodies of `GetBitrateStr` and
`GetSampleRateStr` give the same string exactly when the rates are the same. -/
theorem renderersAt_injective (v w : AudioVersionID) (l m : LayerID) (i k j n : Nat)
    (hi : i ≤ 15) (hk : k ≤ 15) (hj : j ≤ 3) (hn : n ≤ 3) :
    (GetBitrateStrAt v l i = GetBitrateStrAt w m k ↔
      GetBitrateAt v l i = GetBitrateAt w m k) ∧
    (GetSampleRateStrAt v j = GetSampleRateStrAt w n ↔
      GetSampleRateAt v j = GetSampleRateAt w n) := by
  constructor
  · obtain ⟨a, ha, hea⟩ := bitrate_entry_mem_entryValues v l i hi
    obtain ⟨b, hb, heb⟩ := bitrate_entry_mem_entryValues w m k hk
    have ra : GetBitrateAt v l i = some (a * 8000) := by
      unfold GetBitrateAt; rw [hea]; rfl
    have rb : GetBitrateAt w m k = some (b * 8000) := by
      unfold GetBitrateAt; rw [heb]; rfl
    have sa : GetBitrateStrAt v l i = some (bitrateText (a * 8000)) := by
      show (GetBitrateAt v l i).map bitrateText = _
      rw [ra]; rfl
    have sb : GetBitrateStrAt w m k = some (bitrateText (b * 8000)) := by
      show (GetBitrateAt w m k).map bitrateText = _
      rw [rb]; rfl
    rw [sa, sb, ra, rb]
    constructor
    · intro hs
      rw [bitrateText_injOn a ha b hb (Option.some.inj hs)]
    · intro hr
      rw [Option.some.inj hr]
  · obtain ⟨a, ha, hea⟩ := sampleRate_entry_mem_entryValues v j hj
    obtain ⟨b, hb, heb⟩ := sampleRate_entry_mem_entryValues w n hn
    have sa : GetSampleRateStrAt v j = some (sampleRateText a) := by
      show (GetSampleRateAt v j).map sampleRateText = _
      rw [hea]; rfl
    have sb : GetSampleRateStrAt w n = some (sampleRateText b) := by
      show (GetSampleRateAt w n).map sampleRateText = _
      rw [heb]; rfl
    rw [sa, sb, hea, heb]
    constructor
    · intro hs
      rw [sampleRateText_injOn a ha b hb (Option.some.inj hs)]
    · intro hr
      rw [Option.some.inj hr]

/-! ## The resolvers and renderers on headers

The statements of this section are on `GetBitrate`, `GetSampleRate`, `GetBitrateStr` and
`GetSampleRateStr` themselves, on a header whose version and layer are assigned and whose
index is stored in the `bool` member. -/

/-- The integer a `bool` member is read as is at most 1. -/
theorem ofBool_le_one (b : Bool) : ofBool b ≤ 1 := by
  cases b <;> decide

/-- C1: on a header with MPEG_1 and LAYER_3 and the bitrate index 9 stored, `GetBitrate`
returns 32000 (the table entry of index 9 is 16, which would give 128000); for each of the
stored indices 1..14 it returns 32000, the value of index 1, where the standard bitrates
are 32000, 40000, ..., 320000. -/
theorem GetBitrate_stored_index (h : FrameHeader) :
    GetBitrate (storeBitrateIndex
      { h with AudioVersion := AudioVersionID.MPEG_1, Layer := LayerID.LAYER_3 } 9)
      = some 32000 ∧
    GetBitrate.entry AudioVersionID.MPEG_1 LayerID.LAYER_3 9 = some 16 ∧
    (List.range 14).map (fun k => GetBitrate (storeBitrateIndex
      { h with AudioVersion := AudioVersionID.MPEG_1, Layer := LayerID.LAYER_3 } (k + 1)))
      = List.replicate 14 (some 32000) ∧
    (standardKbps AudioVersionID.MPEG_1 LayerID.LAYER_3).map (fun kbps => kbps * 1000)
      = [32000, 40000, 48000, 56000, 64000, 80000, 96000, 112000, 128000, 160000, 192000,
          224000, 256000, 320000] :=
  ⟨rfl, rfl, rfl, by decide⟩

/-- C3: on a header with MPEG_1 and LAYER_3 and the bitrate index 15 stored, `GetBitrate`
returns 32000, not `INVALID` (the table entry of index 15 is -1); on every header
`GetBitrate` returns `INVALID` exactly when the version or the layer is reserved. -/
theorem GetBitrate_stored_index_15 (h : FrameHeader) :
    GetBitrate (storeBitrateIndex
      { h with AudioVersion := AudioVersionID.MPEG_1, Layer := LayerID.LAYER_3 } 15)
      = some 32000 ∧
    GetBitrate.entry AudioVersionID.MPEG_1 LayerID.LAYER_3 15 = some (-1) ∧
    (GetBitrate h = some SpecialBitrate.INVALID ↔
      h.AudioVersion = AudioVersionID.INVALID ∨ h.Layer = LayerID.INVALID) := by
  refine ⟨rfl, rfl, ?_⟩
  show GetBitrateAt h.AudioVersion h.Layer (ofBool h.BitrateIndex) = _ ↔ _
  cases h.AudioVersion <;> cases h.Layer <;> cases h.BitrateIndex <;> decide

/-- C4: with the sample-rate index 0, 1, 2 stored, `GetSampleRate` returns 44100, 48000,
48000 for MPEG_1, 22050, 24000, 24000 for MPEG_2 and 11025, 12000, 12000 for MPEG_2_5: at
the stored index 2 it returns the value of index 1 (the table entries of index 2 are 32000,
16000 and 8000). -/
theorem GetSampleRate_stored_index (h : FrameHeader) :
    [0, 1, 2].map (fun j => GetSampleRate
      (storeSampleRateIndex { h with AudioVersion := AudioVersionID.MPEG_1 } j))
      = [some 44100, some 48000, some 48000] ∧
    [0, 1, 2].map (fun j => GetSampleRate
      (storeSampleRateIndex { h with AudioVersion := AudioVersionID.MPEG_2 } j))
      = [some 22050, some 24000, some 24000] ∧
    [0, 1, 2].map (fun j => GetSampleRate
      (storeSampleRateIndex { h with AudioVersion := AudioVersionID.MPEG_2_5 } j))
      = [some 11025, some 12000, some 12000] ∧
    [AudioVersionID.MPEG_1, AudioVersionID.MPEG_2, AudioVersionID.MPEG_2_5].map
      (fun v => GetSampleRateAt v 2) = [some 32000, some 16000, some 8000] :=
  ⟨rfl, rfl, rfl, by decide⟩

/-- C5: on a header with MPEG_1 and the sample-rate index 3 stored, `GetSampleRate` returns
48000, not `RESERVED` (the table entry of index 3 is 0); on every header `GetSampleRate`
returns `RESERVED` exactly when the version is reserved. -/
theorem GetSampleRate_stored_index_3 (h : FrameHeader) :
    GetSampleRate (storeSampleRateIndex { h with AudioVersion := AudioVersionID.MPEG_1 } 3)
      = some 48000 ∧
    GetSampleRateAt AudioVersionID.MPEG_1 3 = some SpecialSampleRate.RESERVED ∧
    (GetSampleRate h = some SpecialSampleRate.RESERVED ↔
      h.AudioVersion = AudioVersionID.INVALID) := by
  refine ⟨rfl, rfl, ?_⟩
  show GetSampleRateAt h.AudioVersion (ofBool h.SampleRateIndex) = _ ↔ _
  cases h.AudioVersion <;> cases h.SampleRateIndex <;> decide

/-- C10: on every header `GetBitrateStr` returns "ANY" exactly when `GetBitrate` returns
`ANY`, "INVALID" exactly when `GetBitrate` returns `INVALID`, and otherwise the decimal
representation of the positive `GetBitrate` value; but on a header with MPEG_1 and LAYER_3
and the bitrate index 9 stored that value is 32000 and the string "32000", not "128000". -/
theorem GetBitrateStr_spec (h : FrameHeader) :
    (GetBitrateStr h = some "ANY" ↔ GetBitrate h = some SpecialBitrate.ANY) ∧
    (GetBitrateStr h = some "INVALID" ↔ GetBitrate h = some SpecialBitrate.INVALID) ∧
    (∃ r : Int, GetBitrate h = some r ∧
      (r = SpecialBitrate.ANY ∨ r = SpecialBitrate.INVALID ∨
        (0 < r ∧ GetBitrateStr h = some (Nat.repr r.toNat)))) ∧
    GetBitrate (storeBitrateIndex
      { h with AudioVersion := AudioVersionID.MPEG_1, Layer := LayerID.LAYER_3 } 9)
      = some 32000 ∧
    GetBitrateStr (storeBitrateIndex
      { h with AudioVersion := AudioVersionID.MPEG_1, Layer := LayerID.LAYER_3 } 9)
      = some "32000" := by
  refine ⟨?_, ?_, ⟨(GetBitrate h).getD 0, ?_⟩, rfl, by rfl⟩
  · show GetBitrateStrAt h.AudioVersion h.Layer (ofBool h.BitrateIndex) = _ ↔
      GetBitrateAt h.AudioVersion h.Layer (ofBool h.BitrateIndex) = _
    cases h.AudioVersion <;> cases h.Layer <;> cases h.BitrateIndex <;> decide
  · show GetBitrateStrAt h.AudioVersion h.Layer (ofBool h.BitrateIndex) = _ ↔
      GetBitrateAt h.AudioVersion h.Layer (ofBool h.BitrateIndex) = _
    cases h.AudioVersion <;> cases h.Layer <;> cases h.BitrateIndex <;> decide
  · show GetBitrateAt h.AudioVersion h.Layer (ofBool h.BitrateIndex)
        = some ((GetBitrateAt h.AudioVersion h.Layer (ofBool h.BitrateIndex)).getD 0) ∧
      ((GetBitrateAt h.AudioVersion h.Layer (ofBool h.BitrateIndex)).getD 0
          = SpecialBitrate.ANY ∨
        (GetBitrateAt h.AudioVersion h.Layer (ofBool h.BitrateIndex)).getD 0
          = SpecialBitrate.INVALID ∨
        (0 < (GetBitrateAt h.AudioVersion h.Layer (ofBool h.BitrateIndex)).getD 0 ∧
          GetBitrateStrAt h.AudioVersion h.Layer (ofBool h.BitrateIndex)
            = some (Nat.repr
                ((GetBitrateAt h.AudioVersion h.Layer (ofBool h.BitrateIndex)).getD 0).toNat)))
    cases h.AudioVersion <;> cases h.Layer <;> cases h.BitrateIndex <;> decide

/-- C11: on every header `GetSampleRateStr` returns "INVALID" exactly when `GetSampleRate`
returns `RESERVED`, otherwise the decimal representation of the positive `GetSampleRate`
value, and never "0"; with MPEG_1 and index 0 stored it returns "44100"; but `RESERVED` is
returned exactly for the reserved version, and with MPEG_1 and the sample-rate index 3
stored the result is 48000 and the string "48000", not "INVALID". -/
theorem GetSampleRateStr_spec (h : FrameHeader) :
    (GetSampleRateStr h = some "INVALID" ↔
      GetSampleRate h = some SpecialSampleRate.RESERVED) ∧
    (GetSampleRate h = some SpecialSampleRate.RESERVED ↔
      h.AudioVersion = AudioVersionID.INVALID) ∧
    (∃ n : Nat, GetSampleRate h = some n ∧
      (n = SpecialSampleRate.RESERVED ∨
        (0 < n ∧ GetSampleRateStr h = some (Nat.repr n)))) ∧
    GetSampleRateStr h ≠ some "0" ∧
    GetSampleRateStr (storeSampleRateIndex { h with AudioVersion := AudioVersionID.MPEG_1 } 0)
      = some "44100" ∧
    GetSampleRate (storeSampleRateIndex { h with AudioVersion := AudioVersionID.MPEG_1 } 3)
      = some 48000 ∧
    GetSampleRateStr (storeSampleRateIndex { h with AudioVersion := AudioVersionID.MPEG_1 } 3)
      = some "48000" := by
  refine ⟨?_, ?_, ⟨(GetSampleRate h).getD 0, ?_⟩, ?_, ?_, rfl, ?_⟩
  · show GetSampleRateStrAt h.AudioVersion (ofBool h.SampleRateIndex) = _ ↔
      GetSampleRateAt h.AudioVersion (ofBool h.SampleRateIndex) = _
    cases h.AudioVersion <;> cases h.SampleRateIndex <;> decide
  · show GetSampleRateAt h.AudioVersion (ofBool h.SampleRateIndex) = _ ↔ _
    cases h.AudioVersion <;> cases h.SampleRateIndex <;> decide
  · show GetSampleRateAt h.AudioVersion (ofBool h.SampleRateIndex)
        = some ((GetSampleRateAt h.AudioVersion (ofBool h.SampleRateIndex)).getD 0) ∧
      ((GetSampleRateAt h.AudioVersion (ofBool h.SampleRateIndex)).getD 0
          = SpecialSampleRate.RESERVED ∨
        (0 < (GetSampleRateAt h.AudioVersion (ofBool h.SampleRateIndex)).getD 0 ∧
          GetSampleRateStrAt h.AudioVersion (ofBool h.SampleRateIndex)
            = some (Nat.repr
                ((GetSampleRateAt h.AudioVersion (ofBool h.SampleRateIndex)).getD 0))))
    cases h.AudioVersion <;> cases h.SampleRateIndex <;> decide
  · show GetSampleRateStrAt h.AudioVersion (ofBool h.SampleRateIndex) ≠ _
    cases h.AudioVersion <;> cases h.SampleRateIndex <;> decide
  · show GetSampleRateStrAt AudioVersionID.MPEG_1 (ofBool (toBool 0)) = some "44100"
    decide
  · show GetSampleRateStrAt AudioVersionID.MPEG_1 (ofBool (toBool 3)) = some "48000"
    decide

/-- C17: on a header with MPEG_1 and LAYER_3, `GetBitrate` returns 32000 with the bitrate
index 1 stored and 32000 with the index 2 stored, so it is not strictly increasing in the
stored index; on every header, any two stored indices from 1 on give the same result. -/
theorem GetBitrate_stored_index_not_increasing (h : FrameHeader) (i j : Nat) :
    GetBitrate (storeBitrateIndex
      { h with AudioVersion := AudioVersionID.MPEG_1, Layer := LayerID.LAYER_3 } 1)
      = some 32000 ∧
    GetBitrate (storeBitrateIndex
      { h with AudioVersion := AudioVersionID.MPEG_1, Layer := LayerID.LAYER_3 } 2)
      = some 32000 ∧
    GetBitrate (storeBitrateIndex h (i + 1)) = GetBitrate (storeBitrateIndex h (j + 1)) ∧
    [GetBitrate.entry AudioVersionID.MPEG_1 LayerID.LAYER_3 1,
      GetBitrate.entry AudioVersionID.MPEG_1 LayerID.LAYER_3 2] = [some 4, some 5] :=
  ⟨rfl, rfl, rfl, rfl⟩

/-- C19: for any two headers, `GetBitrateStr` returns the same string exactly when
`GetBitrate` returns the same value, and `GetSampleRateStr` returns the same string exactly
when `GetSampleRate` returns the same value. -/
theorem GetBitrateStr_GetSampleRateStr_injective (h1 h2 : FrameHeader) :
    (GetBitrateStr h1 = GetBitrateStr h2 ↔ GetBitrate h1 = GetBitrate h2) ∧
    (GetSampleRateStr h1 = GetSampleRateStr h2 ↔ GetSampleRate h1 = GetSampleRate h2) :=
  renderersAt_injective h1.AudioVersion h2.AudioVersion h1.Layer h2.Layer
    (ofBool h1.BitrateIndex) (ofBool h2.BitrateIndex)
    (ofBool h1.SampleRateIndex) (ofBool h2.SampleRateIndex)
    (Nat.le_trans (ofBool_le_one _) (by decide)) (Nat.le_trans (ofBool_le_one _) (by decide))
    (Nat.le_trans (ofBool_le_one _) (by decide)) (Nat.le_trans (ofBool_le_one _) (by decide))

end FrameHeader
